import Mathlib

/-!
Shallow embedding of src/scripts/lazy-after-banner.js: a deferred
image/background loader gated on a hero banner, plus a policy-page tab
switcher.  DOM elements are records, the DOM is a list of them, and each
asynchronous load path is modelled by the trace of atomic actions it
performs, in program order.
-/

/-- JavaScript string containment on character lists: is the needle a
contiguous infix of the haystack?  Prefix helper. -/
def charPrefixB : List Char → List Char → Bool
  | [], _ => true
  | _ :: _, [] => false
  | a :: as, b :: bs => a == b && charPrefixB as bs

/-- JavaScript string containment on character lists (infix search). -/
def charInfixB (needle : List Char) : List Char → Bool
  | [] => charPrefixB needle []
  | b :: bs => charPrefixB needle (b :: bs) || charInfixB needle bs

/-- JavaScript src.includes(sub): substring containment. -/
def strIncludes (s sub : String) : Bool := charInfixB sub.data s.data

/-- JavaScript a || b over optional dataset strings: undefined and the
empty string are falsy. -/
def jsOrStr (a b : Option String) : Option String :=
  match a with
  | some s => if s == "" then b else some s
  | none => b

/-- JavaScript truthiness of an optional dataset string. -/
def jsTruthy : Option String → Bool
  | none => false
  | some s => !(s == "")

/-- The cfg object of the loader. -/
structure LoaderCfg where
  bannerTimeout : Nat
  concurrency : Nat
  delayBetweenBatches : Nat
  mobileBreakpoint : Nat
  mobileSkip : List String
deriving Repr, DecidableEq

/-- The literal cfg constant from the source. -/
def cfg : LoaderCfg :=
  { bannerTimeout := 5000
  , concurrency := 2
  , delayBetweenBatches := 100
  , mobileBreakpoint := 480
  , mobileSkip := ["/image/image.webp"] }

/-- window.innerWidth <= cfg.mobileBreakpoint. -/
def isMobile (innerWidth : Nat) : Bool := innerWidth ≤ cfg.mobileBreakpoint

/-- cfg.mobileSkip.some(s => src.includes(s)). -/
def skipMatch (src : String) : Bool :=
  cfg.mobileSkip.any (fun s => strIncludes src s)

/-- A bounding client rectangle (getBoundingClientRect), in CSS pixels. -/
structure Rect where
  top : Int
  bottom : Int
  left : Int
  right : Int
deriving Repr, DecidableEq

/-- A DOM element as the loader sees it: its tag, its deferred-source
dataset attributes, its live source properties, and its geometry.  The
dataset also carries a mobile-variant attribute (data-src-mobile); the
DOM permits arbitrary data attributes, and whether the script reads this
one is exactly what claim C2 is about. -/
structure LazyElem where
  isImg : Bool
  dataSrc : Option String
  dataLazy : Option String
  dataBg : Option String
  dataSrcMobile : Option String
  src : Option String
  backgroundImage : Option String
  rect : Rect
deriving Repr, DecidableEq

/-- Does the element match the selector img[data-src], img[data-lazy]? -/
def matchesImgSel (e : LazyElem) : Bool :=
  e.isImg && (e.dataSrc.isSome || e.dataLazy.isSome)

/-- Does the element match the selector [data-bg]? -/
def matchesBgSel (e : LazyElem) : Bool := e.dataBg.isSome

/-- The resolved source of an img element: img.dataset.src || img.dataset.lazy. -/
def resolvedImgSrc (e : LazyElem) : Option String := jsOrStr e.dataSrc e.dataLazy

/-- The CSS value written by el.style.backgroundImage = url("src"). -/
def bgUrl (s : String) : String := "url(\"" ++ s ++ "\")"

/-- One deferred-loading task kind: settle an image source or a
background image. -/
inductive TaskKind where
  | img (src : String)
  | bg (src : String)
deriving Repr, DecidableEq

/-- The task createTasks builds for one scanned img element: resolve the
source, drop falsy sources, skip mobileSkip matches on mobile. -/
def imgTaskFor (mobile : Bool) (e : LazyElem) : Option TaskKind :=
  match resolvedImgSrc e with
  | none => none
  | some s =>
    if s == "" then none
    else if mobile && skipMatch s then none
    else some (TaskKind.img s)

/-- The task createTasks builds for one scanned [data-bg] element. -/
def bgTaskFor (mobile : Bool) (e : LazyElem) : Option TaskKind :=
  match e.dataBg with
  | none => none
  | some s =>
    if s == "" then none
    else if mobile && skipMatch s then none
    else some (TaskKind.bg s)

/-- createTasks: scan the DOM for img[data-src], img[data-lazy] and for
[data-bg], and build the list of load tasks, image tasks first, each
tagged with the index of its element. -/
def createTasks (innerWidth : Nat) (dom : List LazyElem) : List (Nat × TaskKind) :=
  let mobile := isMobile innerWidth
  (dom.enum.filterMap fun p =>
    if matchesImgSel p.2 then (imgTaskFor mobile p.2).map (fun k => (p.1, k)) else none)
  ++ (dom.enum.filterMap fun p =>
    if matchesBgSel p.2 then (bgTaskFor mobile p.2).map (fun k => (p.1, k)) else none)

/-- Effect of a completed image load on its element: assign src, remove
data-src and data-lazy. -/
def applyImgLoad (s : String) (e : LazyElem) : LazyElem :=
  { e with src := some s, dataSrc := none, dataLazy := none }

/-- Effect of a completed background load on its element: assign
style.backgroundImage, remove data-bg. -/
def applyBgLoad (s : String) (e : LazyElem) : LazyElem :=
  { e with backgroundImage := some (bgUrl s), dataBg := none }

/-- Effect of one task on one element. -/
def applyTaskKind : TaskKind → LazyElem → LazyElem
  | TaskKind.img s, e => applyImgLoad s e
  | TaskKind.bg s, e => applyBgLoad s e

instance : Inhabited LazyElem :=
  ⟨{ isImg := false, dataSrc := none, dataLazy := none, dataBg := none
   , dataSrcMobile := none, src := none, backgroundImage := none
   , rect := { top := 0, bottom := 0, left := 0, right := 0 } }⟩

/-- runPool, observed through its DOM mutations: every task eventually
runs, each mutating its own element. -/
def runPool (dom : List LazyElem) (tasks : List (Nat × TaskKind)) : List LazyElem :=
  tasks.foldl (fun d t => d.set t.1 (applyTaskKind t.2 (d.getD t.1 default))) dom

/-- An element is settled when none of the deferred markers data-src,
data-lazy, data-bg remain on it. -/
def settled (e : LazyElem) : Bool :=
  e.dataSrc.isNone && e.dataLazy.isNone && e.dataBg.isNone

/-- An atomic observable action of a load path, in program order. -/
inductive LoadAction where
  | probeStart (src : String)
  | probeDone (src : String)
  | assignSrc (src : String)
  | assignBg (src : String)
  | removeAttr (name : String)
  | unobserve
deriving Repr, DecidableEq, BEq

/-- How the detached probe image finished: its load event or its error
event. -/
inductive ProbeOutcome where
  | load
  | error
deriving Repr, DecidableEq

/-- preloadImage: create a detached Image, set its src, and resolve from
the load handler and from the error handler, which are the same
function (img.onload = img.onerror = resolve).  The trace is the probe
start followed by its resolution. -/
def preloadImageTrace (url : String) : ProbeOutcome → List LoadAction
  | ProbeOutcome.load => [LoadAction.probeStart url, LoadAction.probeDone url]
  | ProbeOutcome.error => [LoadAction.probeStart url, LoadAction.probeDone url]

/-- The mutations a completed image load performs on the live element:
img.src = src; remove data-src; remove data-lazy. -/
def imgSettleActions (s : String) : List LoadAction :=
  [LoadAction.assignSrc s, LoadAction.removeAttr "data-src",
   LoadAction.removeAttr "data-lazy"]

/-- The mutations a completed background load performs on the live
element: el.style.backgroundImage = url("src"); remove data-bg. -/
def bgSettleActions (s : String) : List LoadAction :=
  [LoadAction.assignBg s, LoadAction.removeAttr "data-bg"]

/-- Trace of one image task of createTasks:
preloadImage(src).then(settle). -/
def imgTaskTrace (s : String) (o : ProbeOutcome) : List LoadAction :=
  preloadImageTrace s o ++ imgSettleActions s

/-- Trace of one background task of createTasks. -/
def bgTaskTrace (s : String) (o : ProbeOutcome) : List LoadAction :=
  preloadImageTrace s o ++ bgSettleActions s

/-- Is the action a mutation of the live element? -/
def isMutation : LoadAction → Bool
  | LoadAction.assignSrc _ => true
  | LoadAction.assignBg _ => true
  | LoadAction.removeAttr _ => true
  | _ => false

/-- Is the action an assignment of a source or background? -/
def isAssign : LoadAction → Bool
  | LoadAction.assignSrc _ => true
  | LoadAction.assignBg _ => true
  | _ => false

/-- Is the action the start of a probe load? -/
def isProbeStart : LoadAction → Bool
  | LoadAction.probeStart _ => true
  | _ => false

/-- Is the action the completion of a probe load? -/
def isProbeDone : LoadAction → Bool
  | LoadAction.probeDone _ => true
  | _ => false

/-- Mobile observer registration for a scanned img: read
dataset.src || dataset.lazy, empty when both are falsy, and observe
it unless that string matches
mobileSkip. -/
def shouldObserveImg (e : LazyElem) : Bool :=
  !(skipMatch ((resolvedImgSrc e).getD ""))

/-- Mobile observer registration for a scanned [data-bg] element. -/
def shouldObserveBg (e : LazyElem) : Bool :=
  !(skipMatch (e.dataBg.getD ""))

/-- The intersection-observer set right after mobile registration: the
scanned img elements and [data-bg] elements whose registration source
does not match mobileSkip. -/
def observedSet (dom : List LazyElem) : List LazyElem :=
  (dom.filter matchesImgSel).filter shouldObserveImg
  ++ (dom.filter matchesBgSel).filter shouldObserveBg

/-- IntersectionObserver callback, IMG branch, for one intersecting
entry: falsy or skipped sources just unobserve; otherwise probe, then
settle, then unobserve. -/
def cbImgTrace (e : LazyElem) (o : ProbeOutcome) : List LoadAction :=
  match resolvedImgSrc e with
  | none => [LoadAction.unobserve]
  | some s =>
    if s == "" then [LoadAction.unobserve]
    else if skipMatch s then [LoadAction.unobserve]
    else preloadImageTrace s o ++ (imgSettleActions s ++ [LoadAction.unobserve])

/-- IntersectionObserver callback, non-IMG branch, for one intersecting
entry. -/
def cbBgTrace (e : LazyElem) (o : ProbeOutcome) : List LoadAction :=
  match e.dataBg with
  | none => [LoadAction.unobserve]
  | some s =>
    if s == "" then [LoadAction.unobserve]
    else if skipMatch s then [LoadAction.unobserve]
    else preloadImageTrace s o ++ (bgSettleActions s ++ [LoadAction.unobserve])

/-- IntersectionObserver callback for one entry: non-intersecting
entries are ignored; otherwise branch on whether the tag is IMG. -/
def cbEntryTrace (e : LazyElem) (isIntersecting : Bool) (o : ProbeOutcome) :
    List LoadAction :=
  if !isIntersecting then []
  else if e.isImg then cbImgTrace e o else cbBgTrace e o

/-- The rootMargin used by the observer and the sweep (200px). -/
def rootMarginPx : Int := 200

/-- isVisibleWithMargin from init: is the bounding rect within the
viewport extended by the root margin? -/
def isVisibleWithMargin (r : Rect) (winH winW : Int) : Bool :=
  r.bottom ≥ -rootMarginPx && r.top ≤ winH + rootMarginPx &&
  r.right ≥ 0 && r.left ≤ winW

/-- Immediate visibility sweep over one observed img (the setTimeout 50ms
pass): if visible, re-read dataset.src || dataset.lazy and, when truthy,
probe, settle and unobserve.  Note: no mobileSkip check here. -/
def sweepImgTrace (e : LazyElem) (winH winW : Int) (o : ProbeOutcome) :
    List LoadAction :=
  if isVisibleWithMargin e.rect winH winW then
    match resolvedImgSrc e with
    | none => []
    | some s =>
      if s == "" then []
      else preloadImageTrace s o ++ (imgSettleActions s ++ [LoadAction.unobserve])
  else []

/-- Immediate visibility sweep over one observed [data-bg] element. -/
def sweepBgTrace (e : LazyElem) (winH winW : Int) (o : ProbeOutcome) :
    List LoadAction :=
  if isVisibleWithMargin e.rect winH winW then
    match e.dataBg with
    | none => []
    | some s =>
      if s == "" then []
      else preloadImageTrace s o ++ (bgSettleActions s ++ [LoadAction.unobserve])
  else []

/-- pageshow handler over one observed img: same body as the immediate
sweep (the source duplicates the block).  No mobileSkip check. -/
def pageshowImgTrace (e : LazyElem) (winH winW : Int) (o : ProbeOutcome) :
    List LoadAction :=
  if isVisibleWithMargin e.rect winH winW then
    match resolvedImgSrc e with
    | none => []
    | some s =>
      if s == "" then []
      else preloadImageTrace s o ++ (imgSettleActions s ++ [LoadAction.unobserve])
  else []

/-- pageshow handler over one observed [data-bg] element. -/
def pageshowBgTrace (e : LazyElem) (winH winW : Int) (o : ProbeOutcome) :
    List LoadAction :=
  if isVisibleWithMargin e.rect winH winW then
    match e.dataBg with
    | none => []
    | some s =>
      if s == "" then []
      else preloadImageTrace s o ++ (bgSettleActions s ++ [LoadAction.unobserve])
  else []

/-- State of the hero banner element when waitForBannerLoaded is
called: whether querySelector finds it, whether it is already complete,
and at what times its load event and error event would fire. -/
structure BannerState where
  present : Bool
  complete : Bool
  loadAt : Option Nat
  errorAt : Option Nat
deriving Repr, DecidableEq

/-- The done flag and resolution time threaded through finish. -/
structure DoneSt where
  done : Bool
  res : Nat
deriving Repr, DecidableEq

/-- finish: if(done) return; done = true; resolve() — invoked at time t. -/
def finishAt (t : Nat) (s : DoneSt) : DoneSt :=
  if s.done then s else { done := true, res := t }

/-- Insert a time into an ascending list of times. -/
def insertByTime (t : Nat) : List Nat → List Nat
  | [] => [t]
  | h :: tl => if t ≤ h then t :: h :: tl else h :: insertByTime t tl

/-- Sort invocation times ascending: events are delivered in time
order. -/
def timeSort : List Nat → List Nat
  | [] => []
  | h :: tl => insertByTime h (timeSort tl)

/-- The pending invocations of finish for a present, incomplete banner:
the load listener, the error listener and the setTimeout, at their
firing times. -/
def finishInvocations (timeout : Nat) (b : BannerState) : List Nat :=
  (match b.loadAt with | some t => [t] | none => [])
  ++ (match b.errorAt with | some t => [t] | none => [])
  ++ [timeout]

/-- waitForBannerLoaded: resolve immediately when the banner is absent
or already complete; otherwise the promise resolves at the time of the
first finish invocation to be delivered, the done flag discarding the
rest. -/
def waitForBannerLoaded (timeout : Nat) (b : BannerState) : Nat :=
  if !b.present then 0
  else if b.complete then 0
  else ((timeSort (finishInvocations timeout b)).foldl
          (fun s t => finishAt t s) { done := false, res := 0 }).res

/-- A section of the policy page: its id and whether its class list
carries policy-hidden. -/
structure PolicySection where
  id : String
  hidden : Bool
deriving Repr, DecidableEq

/-- A tab control: its dataset.target and whether its class list
carries policy-active. -/
structure PolicyTab where
  target : Option String
  active : Bool
deriving Repr, DecidableEq

/-- The policy page: its sections, its tab controls and the URL
fragment (location.hash, hash mark included, or empty). -/
structure PolicyPage where
  sections : List PolicySection
  tabs : List PolicyTab
  hash : String
deriving Repr, DecidableEq

/-- showTab: unhide the section whose id matches, hide every other
section; activate exactly the controls whose dataset.target matches;
replace the fragment with the new id. -/
def showTab (id : String) (p : PolicyPage) : PolicyPage :=
  { sections := p.sections.map fun s =>
      if s.id == id then { s with hidden := false } else { s with hidden := true }
  , tabs := p.tabs.map fun b =>
      if b.target == some id then { b with active := true } else { b with active := false }
  , hash := "#" ++ id }

/-- JavaScript str.replace(hash mark, empty): remove the first
occurrence of the hash mark. -/
def removeFirstHash : List Char → List Char
  | [] => []
  | c :: cs => if c == '#' then cs else c :: removeFirstHash cs

/-- The stripped fragment: location.hash, or the empty string when it is
absent, with its first hash mark removed. -/
def stripHash (s : String) : String := String.mk (removeFirstHash s.data)

/-- The initial tab: the stripped fragment when it is among the declared
targets, the fixed fallback terms otherwise. -/
def initialTab (hash : String) (targets : List (Option String)) : String :=
  if some (stripHash hash) ∈ targets then stripHash hash else "terms"

/-- The DOMContentLoaded handler of the tab switcher: do nothing when no
controls exist, otherwise show the initial tab. -/
def tabInitialize (p : PolicyPage) : PolicyPage :=
  if p.tabs = [] then p
  else showTab (initialTab p.hash (p.tabs.map fun t => t.target)) p

/-- The click handler of one control: if its dataset.target is truthy,
show it. -/
def clickTab (b : PolicyTab) (p : PolicyPage) : PolicyPage :=
  match b.target with
  | none => p
  | some t => if t == "" then p else showTab t p

/-- querySelectorAll for remaining deferred elements at the end of
init. -/
def remainingDeferred (dom : List LazyElem) : List LazyElem :=
  dom.filter fun e => matchesImgSel e || matchesBgSel e

/-- How many times the tail of init registers the first-interaction
fallback loader: once inside the chosen branch (the mobile branch and
the desktop branch each perform the same guarded registration) and once
in the unconditional block after the branch. -/
def initFallbackRegistrations (innerWidth : Nat) (dom : List LazyElem) : Nat :=
  (if isMobile innerWidth then
    (if (remainingDeferred dom).length ≠ 0 then 1 else 0)
   else
    (if (remainingDeferred dom).length ≠ 0 then 1 else 0))
  + (if (remainingDeferred dom).length ≠ 0 then 1 else 0)

/-- A kind of first user interaction. -/
inductive InteractionKind where
  | scroll
  | touchstart
  | mousemove
  | keydown
deriving Repr, DecidableEq

/-- onFirstInteraction listens for every one of these event kinds. -/
def fallbackEventKinds : List InteractionKind :=
  [InteractionKind.scroll, InteractionKind.touchstart,
   InteractionKind.mousemove, InteractionKind.keydown]

/-- Number of scan-and-load passes started by the first user interaction
of the given kind when n independently registered fallback handlers are
pending: every registered handler listens for every supported kind and
runs its load function once before removing itself. -/
def passesOnFirstInteraction (k : InteractionKind) (handlers : Nat) : Nat :=
  if fallbackEventKinds.contains k then handlers else 0

theorem matchesImgSel_of_settled (e : LazyElem) (h : settled e = true) :
    matchesImgSel e = false := by
  unfold settled at h
  unfold matchesImgSel
  cases hs : e.dataSrc <;> cases hl : e.dataLazy <;> simp_all

theorem matchesBgSel_of_settled (e : LazyElem) (h : settled e = true) :
    matchesBgSel e = false := by
  unfold settled at h
  unfold matchesBgSel
  cases hb : e.dataBg <;> simp_all

/-- C1: on a narrow viewport, a deferred element whose resolved source
contains a configured skip substring is skipped by the task pool, the
observer registration and the observer callback — but the immediate
visibility sweep and the pageshow re-check, which perform no skip test,
do assign it its source when it is inside the extended viewport.  The
code contradicts its own header comment (skip configured files on
mobile): evaluation at the failing input. -/
theorem c1_mobile_skip_sweep_code_bug :
    (skipMatch "/image/image.webp" = true ∧
     isMobile 400 = true ∧
     imgTaskFor (isMobile 400)
       { isImg := true, dataSrc := some "/image/image.webp", dataLazy := none
       , dataBg := none, dataSrcMobile := none, src := none
       , backgroundImage := none
       , rect := { top := 0, bottom := 100, left := 0, right := 100 } } = none ∧
     shouldObserveImg
       { isImg := true, dataSrc := some "/image/image.webp", dataLazy := none
       , dataBg := none, dataSrcMobile := none, src := none
       , backgroundImage := none
       , rect := { top := 0, bottom := 100, left := 0, right := 100 } } = false ∧
     cbImgTrace
       { isImg := true, dataSrc := some "/image/image.webp", dataLazy := none
       , dataBg := none, dataSrcMobile := none, src := none
       , backgroundImage := none
       , rect := { top := 0, bottom := 100, left := 0, right := 100 } }
       ProbeOutcome.load = [LoadAction.unobserve]) ∧
    ((sweepImgTrace
       { isImg := true, dataSrc := some "/image/image.webp", dataLazy := none
       , dataBg := none, dataSrcMobile := none, src := none
       , backgroundImage := none
       , rect := { top := 0, bottom := 100, left := 0, right := 100 } }
       800 400 ProbeOutcome.load).any isAssign = true ∧
     (pageshowImgTrace
       { isImg := true, dataSrc := some "/image/image.webp", dataLazy := none
       , dataBg := none, dataSrcMobile := none, src := none
       , backgroundImage := none
       , rect := { top := 0, bottom := 100, left := 0, right := 100 } }
       800 400 ProbeOutcome.load).any isAssign = true) := by
  exact ⟨⟨rfl, rfl, rfl, rfl, rfl⟩, rfl, rfl⟩

/-- C2 counterexample: an element declaring both a mobile variant
(data-src-mobile) and a desktop variant (data-src), scanned at a
viewport width below the breakpoint, is assigned the desktop variant,
not the mobile one: the scanner reads no mobile-variant attribute. -/
theorem c2_counterexample :
    isMobile 400 = true ∧
    imgTaskFor (isMobile 400)
      { isImg := true, dataSrc := some "/image/hero-desktop.webp"
      , dataLazy := none, dataBg := none
      , dataSrcMobile := some "/image/hero-mobile.webp", src := none
      , backgroundImage := none
      , rect := { top := 0, bottom := 100, left := 0, right := 100 } }
      = some (TaskKind.img "/image/hero-desktop.webp") ∧
    ¬ (imgTaskFor (isMobile 400)
      { isImg := true, dataSrc := some "/image/hero-desktop.webp"
      , dataLazy := none, dataBg := none
      , dataSrcMobile := some "/image/hero-mobile.webp", src := none
      , backgroundImage := none
      , rect := { top := 0, bottom := 100, left := 0, right := 100 } }
      = some (TaskKind.img "/image/hero-mobile.webp")) := by
  exact ⟨rfl, rfl, by decide⟩

/-- C2 amended: the assigned source never depends on the mobile-variant
attribute, it is always the resolved desktop source (data-src, falling
back to data-lazy), and apart from the mobile skip filter it does not
depend on the viewport width either. -/
theorem c2_amended_source_ignores_mobile_variant :
    ∀ (m mw : Bool) (e : LazyElem) (v : Option String) (s : String),
      (imgTaskFor m { e with dataSrcMobile := v } = imgTaskFor m e) ∧
      (imgTaskFor m e = some (TaskKind.img s) →
        some s = resolvedImgSrc e) ∧
      (imgTaskFor m e = some (TaskKind.img s) → skipMatch s = false →
        imgTaskFor mw e = some (TaskKind.img s)) := by
  intro m mw e v s
  refine ⟨rfl, ?_, ?_⟩
  · unfold imgTaskFor
    cases hr : resolvedImgSrc e with
    | none => intro h; cases h
    | some t =>
      by_cases ht : t == ""
      · simp [ht]
      · by_cases hm : m && skipMatch t
        · simp [ht, hm]
        · simp only [ht, hm, Bool.false_eq_true, ite_false]
          intro h
          simp only [Option.some.injEq, TaskKind.img.injEq] at h
          rw [h.symm]
  · unfold imgTaskFor
    cases hr : resolvedImgSrc e with
    | none => intro h; cases h
    | some t =>
      by_cases ht : t == ""
      · simp [ht]
      · by_cases hm : m && skipMatch t
        · simp [ht, hm]
        · simp only [ht, hm, Bool.false_eq_true, ite_false]
          intro h hsk
          simp only [Option.some.injEq, TaskKind.img.injEq] at h
          subst h
          simp [ht, hsk]

/-- C2 amended witness. -/
theorem c2_amended_witness :
    (some "/image/a.webp" =
      resolvedImgSrc
        { isImg := true, dataSrc := some "/image/a.webp", dataLazy := none
        , dataBg := none, dataSrcMobile := some "/image/m.webp", src := none
        , backgroundImage := none
        , rect := { top := 0, bottom := 100, left := 0, right := 100 } }) ∧
    imgTaskFor false
      { isImg := true, dataSrc := some "/image/a.webp", dataLazy := none
      , dataBg := none, dataSrcMobile := some "/image/m.webp", src := none
      , backgroundImage := none
      , rect := { top := 0, bottom := 100, left := 0, right := 100 } }
      = some (TaskKind.img "/image/a.webp") := by
  refine ⟨(c2_amended_source_ignores_mobile_variant true false
    { isImg := true, dataSrc := some "/image/a.webp", dataLazy := none
    , dataBg := none, dataSrcMobile := some "/image/m.webp", src := none
    , backgroundImage := none
    , rect := { top := 0, bottom := 100, left := 0, right := 100 } }
    none "/image/a.webp").2.1 rfl,
    (c2_amended_source_ignores_mobile_variant true false
    { isImg := true, dataSrc := some "/image/a.webp", dataLazy := none
    , dataBg := none, dataSrcMobile := some "/image/m.webp", src := none
    , backgroundImage := none
    , rect := { top := 0, bottom := 100, left := 0, right := 100 } }
    none "/image/a.webp").2.2 rfl (by decide)⟩

/-- C3 counterexample: an img carrying both data-src and data-bg is
settled by the image load path (its real source is assigned), yet the
deferred marker data-bg is still present afterwards — the image path
never touches data-bg (its trace contains no such removal). -/
theorem c3_counterexample :
    ((applyImgLoad "/image/a.webp"
      { isImg := true, dataSrc := some "/image/a.webp", dataLazy := none
      , dataBg := some "/image/b.webp", dataSrcMobile := none, src := none
      , backgroundImage := none
      , rect := { top := 0, bottom := 100, left := 0, right := 100 } }).src
      = some "/image/a.webp") ∧
    ((applyImgLoad "/image/a.webp"
      { isImg := true, dataSrc := some "/image/a.webp", dataLazy := none
      , dataBg := some "/image/b.webp", dataSrcMobile := none, src := none
      , backgroundImage := none
      , rect := { top := 0, bottom := 100, left := 0, right := 100 } }).dataBg
      = some "/image/b.webp") ∧
    (settled (applyImgLoad "/image/a.webp"
      { isImg := true, dataSrc := some "/image/a.webp", dataLazy := none
      , dataBg := some "/image/b.webp", dataSrcMobile := none, src := none
      , backgroundImage := none
      , rect := { top := 0, bottom := 100, left := 0, right := 100 } }) = false) ∧
    ((cbImgTrace
      { isImg := true, dataSrc := some "/image/a.webp", dataLazy := none
      , dataBg := some "/image/b.webp", dataSrcMobile := none, src := none
      , backgroundImage := none
      , rect := { top := 0, bottom := 100, left := 0, right := 100 } }
      ProbeOutcome.load).contains (LoadAction.removeAttr "data-bg") = false) := by
  exact ⟨rfl, rfl, rfl, by decide⟩

/-- C3 amended: each load path removes the deferred markers of its own
source kind — an image load removes data-src and data-lazy, a
background load removes data-bg — so an element that carries markers of
only one kind is fully settled by the load path of that kind; an
element carrying both kinds keeps the marker of the other kind. -/
theorem c3_amended_markers_removed_per_kind :
    ∀ (s : String) (e : LazyElem),
      ((applyImgLoad s e).dataSrc = none ∧ (applyImgLoad s e).dataLazy = none) ∧
      ((applyBgLoad s e).dataBg = none) ∧
      (e.dataBg = none → settled (applyImgLoad s e) = true) ∧
      (e.dataSrc = none → e.dataLazy = none → settled (applyBgLoad s e) = true) := by
  intro s e
  refine ⟨⟨rfl, rfl⟩, rfl, ?_, ?_⟩
  · intro hb
    simp [settled, applyImgLoad, hb]
  · intro hs hl
    simp [settled, applyBgLoad, hs, hl]

/-- C3 amended witness. -/
theorem c3_amended_witness :
    settled (applyImgLoad "/image/a.webp"
      { isImg := true, dataSrc := some "/image/a.webp", dataLazy := none
      , dataBg := none, dataSrcMobile := none, src := none
      , backgroundImage := none
      , rect := { top := 0, bottom := 100, left := 0, right := 100 } }) = true ∧
    settled (applyBgLoad "/image/b.webp"
      { isImg := false, dataSrc := none, dataLazy := none
      , dataBg := some "/image/b.webp", dataSrcMobile := none, src := none
      , backgroundImage := none
      , rect := { top := 0, bottom := 100, left := 0, right := 100 } }) = true := by
  exact ⟨(c3_amended_markers_removed_per_kind "/image/a.webp"
      { isImg := true, dataSrc := some "/image/a.webp", dataLazy := none
      , dataBg := none, dataSrcMobile := none, src := none
      , backgroundImage := none
      , rect := { top := 0, bottom := 100, left := 0, right := 100 } }).2.2.1 rfl,
    (c3_amended_markers_removed_per_kind "/image/b.webp"
      { isImg := false, dataSrc := none, dataLazy := none
      , dataBg := some "/image/b.webp", dataSrcMobile := none, src := none
      , backgroundImage := none
      , rect := { top := 0, bottom := 100, left := 0, right := 100 } }).2.2.2 rfl rfl⟩

/-- C4: the scan-and-load pass is idempotent — on a DOM in which every
element is settled, createTasks returns the empty task list and running
the pool performs no DOM mutation. -/
theorem c4_settled_pass_idempotent :
    ∀ (w : Nat) (dom : List LazyElem),
      (∀ e ∈ dom, settled e = true) →
      createTasks w dom = [] ∧ runPool dom (createTasks w dom) = dom := by
  intro w dom h
  have hnil : createTasks w dom = [] := by
    unfold createTasks
    rw [List.append_eq_nil]
    constructor <;>
    · rw [List.filterMap_eq_nil_iff]
      intro p hp
      have hmem : p.2 ∈ dom := by
        rw [List.mem_enum_iff_getElem?] at hp
        exact List.getElem?_mem hp
      first
      | rw [matchesImgSel_of_settled p.2 (h p.2 hmem)]; rfl
      | rw [matchesBgSel_of_settled p.2 (h p.2 hmem)]; rfl
  refine ⟨hnil, ?_⟩
  rw [hnil]
  rfl

/-- C4 witness. -/
theorem c4_witness :
    (∀ e ∈ [({ isImg := true, dataSrc := none, dataLazy := none
             , dataBg := none, dataSrcMobile := none
             , src := some "/image/a.webp", backgroundImage := none
             , rect := { top := 0, bottom := 100, left := 0, right := 100 } }
             : LazyElem)], settled e = true) ∧
    createTasks 800
      [{ isImg := true, dataSrc := none, dataLazy := none
       , dataBg := none, dataSrcMobile := none
       , src := some "/image/a.webp", backgroundImage := none
       , rect := { top := 0, bottom := 100, left := 0, right := 100 } }] = [] := by
  refine ⟨by decide, ?_⟩
  exact (c4_settled_pass_idempotent 800
    [{ isImg := true, dataSrc := none, dataLazy := none
     , dataBg := none, dataSrcMobile := none
     , src := some "/image/a.webp", backgroundImage := none
     , rect := { top := 0, bottom := 100, left := 0, right := 100 } }]
    (by decide)).1

/-- C5 counterexample: for an intersecting img with a loadable source,
the observer-callback trace starts the probe first and unobserves only
at the very end — the unobserve does not precede the probe start. -/
theorem c5_counterexample :
    ((cbImgTrace
       { isImg := true, dataSrc := some "/image/a.webp", dataLazy := none
       , dataBg := none, dataSrcMobile := none, src := none
       , backgroundImage := none
       , rect := { top := 0, bottom := 100, left := 0, right := 100 } }
       ProbeOutcome.load).any isProbeStart = true) ∧
    ¬ ((cbImgTrace
       { isImg := true, dataSrc := some "/image/a.webp", dataLazy := none
       , dataBg := none, dataSrcMobile := none, src := none
       , backgroundImage := none
       , rect := { top := 0, bottom := 100, left := 0, right := 100 } }
       ProbeOutcome.load).findIdx (fun a => a == LoadAction.unobserve)
      < (cbImgTrace
       { isImg := true, dataSrc := some "/image/a.webp", dataLazy := none
       , dataBg := none, dataSrcMobile := none, src := none
       , backgroundImage := none
       , rect := { top := 0, bottom := 100, left := 0, right := 100 } }
       ProbeOutcome.load).findIdx isProbeStart) := by
  exact ⟨rfl, by decide⟩

/-- C5 amended: the observer callback unobserves the element only as its
final action.  An entry with a falsy or skipped source is unobserved at
once without a probe; a loadable entry is unobserved only after its
probe completes and its markers are removed, so a second intersection
event arriving while the probe is in flight can schedule the element
again. -/
theorem c5_amended_unobserve_after_settle :
    ∀ (e : LazyElem) (o : ProbeOutcome),
      ((cbImgTrace e o).getLast? = some LoadAction.unobserve ∧
       (cbImgTrace e o = [LoadAction.unobserve] ∨
        ∃ s, cbImgTrace e o =
          [LoadAction.probeStart s, LoadAction.probeDone s,
           LoadAction.assignSrc s, LoadAction.removeAttr "data-src",
           LoadAction.removeAttr "data-lazy", LoadAction.unobserve])) ∧
      ((cbBgTrace e o).getLast? = some LoadAction.unobserve ∧
       (cbBgTrace e o = [LoadAction.unobserve] ∨
        ∃ s, cbBgTrace e o =
          [LoadAction.probeStart s, LoadAction.probeDone s,
           LoadAction.assignBg s, LoadAction.removeAttr "data-bg",
           LoadAction.unobserve])) := by
  intro e o
  constructor
  · unfold cbImgTrace
    cases hr : resolvedImgSrc e with
    | none => exact ⟨rfl, Or.inl rfl⟩
    | some s =>
      by_cases ht : s == ""
      · refine ⟨?_, Or.inl ?_⟩ <;> simp [ht]
      · by_cases hk : skipMatch s
        · refine ⟨?_, Or.inl ?_⟩ <;> simp [ht, hk]
        · cases o <;>
            (refine ⟨?_, Or.inr ⟨s, ?_⟩⟩ <;>
              simp [ht, hk, preloadImageTrace, imgSettleActions])
  · unfold cbBgTrace
    cases hr : e.dataBg with
    | none => exact ⟨rfl, Or.inl rfl⟩
    | some s =>
      by_cases ht : s == ""
      · refine ⟨?_, Or.inl ?_⟩ <;> simp [ht]
      · by_cases hk : skipMatch s
        · refine ⟨?_, Or.inl ?_⟩ <;> simp [ht, hk]
        · cases o <;>
            (refine ⟨?_, Or.inr ⟨s, ?_⟩⟩ <;>
              simp [ht, hk, preloadImageTrace, bgSettleActions])

theorem foldl_finishAt_done (l : List Nat) (s : DoneSt) (hs : s.done = true) :
    l.foldl (fun st t => finishAt t st) s = s := by
  induction l with
  | nil => rfl
  | cons h tl ih =>
    simp only [List.foldl_cons]
    rw [show finishAt h s = s by unfold finishAt; rw [hs]; rfl]
    exact ih

theorem deliver_head_res (m : Nat) (tl : List Nat) :
    ((m :: tl).foldl (fun st t => finishAt t st)
      { done := false, res := 0 }).res = m := by
  simp only [List.foldl_cons]
  rw [show finishAt m { done := false, res := 0 }
        = { done := true, res := m } from rfl]
  rw [foldl_finishAt_done tl _ rfl]

theorem timeSort_eq_cons (l : List Nat) (hl : l ≠ []) :
    ∃ m tl, timeSort l = m :: tl ∧ m ∈ l ∧ ∀ x ∈ l, m ≤ x := by
  induction l with
  | nil => exact absurd rfl hl
  | cons a rest ih =>
    by_cases hr : rest = []
    · subst hr
      refine ⟨a, [], rfl, List.mem_singleton.mpr rfl, ?_⟩
      intro x hx
      rw [List.mem_singleton] at hx
      omega
    · obtain ⟨m, tl, hts, hmem, hmin⟩ := ih hr
      by_cases hle : a ≤ m
      · refine ⟨a, m :: tl, ?_, List.mem_cons_self a rest, ?_⟩
        · show insertByTime a (timeSort rest) = a :: m :: tl
          rw [hts]
          unfold insertByTime
          rw [if_pos hle]
        · intro x hx
          rcases List.mem_cons.mp hx with h1 | h2
          · omega
          · exact le_trans hle (hmin x h2)
      · refine ⟨m, insertByTime a tl, ?_, List.mem_cons_of_mem a hmem, ?_⟩
        · show insertByTime a (timeSort rest) = m :: insertByTime a tl
          rw [hts]
          unfold insertByTime
          rw [if_neg hle]
          cases tl <;> rfl
        · intro x hx
          rcases List.mem_cons.mp hx with h1 | h2
          · omega
          · exact hmin x h2

theorem finishInvocations_ne_nil (timeout : Nat) (b : BannerState) :
    finishInvocations timeout b ≠ [] := by
  unfold finishInvocations
  cases b.loadAt <;> cases b.errorAt <;> simp

/-- C6: waitForBannerLoaded resolves immediately (at time 0) when the
banner is absent, and when a pending banner is present it resolves at
the earliest of the pending finish invocations — the load event, the
error event and the timeout; in particular, with no error event and a
load event before the timeout, it resolves exactly at the load time. -/
theorem c6_banner_wait_resolution :
    ∀ (timeout : Nat) (b : BannerState),
      (b.present = false → waitForBannerLoaded timeout b = 0) ∧
      (b.present = true → b.complete = false →
        waitForBannerLoaded timeout b ∈ finishInvocations timeout b ∧
        (∀ t ∈ finishInvocations timeout b, waitForBannerLoaded timeout b ≤ t)) ∧
      (b.present = true → b.complete = false → b.errorAt = none →
        ∀ tl, b.loadAt = some tl → tl ≤ timeout →
          waitForBannerLoaded timeout b = tl) := by
  intro timeout b
  have hkey : b.present = true → b.complete = false →
      waitForBannerLoaded timeout b ∈ finishInvocations timeout b ∧
      (∀ t ∈ finishInvocations timeout b, waitForBannerLoaded timeout b ≤ t) := by
    intro hp hc
    obtain ⟨m, tl, hts, hmem, hmin⟩ :=
      timeSort_eq_cons (finishInvocations timeout b)
        (finishInvocations_ne_nil timeout b)
    have hw : waitForBannerLoaded timeout b = m := by
      unfold waitForBannerLoaded
      rw [hp, hc]
      simp only [Bool.not_true, Bool.false_eq_true, if_false]
      rw [hts, deliver_head_res]
    rw [hw]
    exact ⟨hmem, hmin⟩
  refine ⟨?_, hkey, ?_⟩
  · intro hp
    unfold waitForBannerLoaded
    rw [hp]
    rfl
  · intro hp hc he tl hload hle
    obtain ⟨hmem, hmin⟩ := hkey hp hc
    have hfi : finishInvocations timeout b = [tl, timeout] := by
      unfold finishInvocations
      rw [hload, he]
      rfl
    rw [hfi] at hmem hmin
    have h1 := hmin tl (by simp)
    rcases List.mem_cons.mp hmem with h2 | h2
    · exact h2
    · rw [List.mem_singleton] at h2
      omega

/-- C6 witness: absent banner resolves at 0; a banner whose load event
fires at 120ms with a 500ms timeout resolves at 120ms, not 500ms. -/
theorem c6_witness :
    waitForBannerLoaded 500
      { present := false, complete := false, loadAt := none, errorAt := none }
      = 0 ∧
    waitForBannerLoaded 500
      { present := true, complete := false, loadAt := some 120, errorAt := none }
      = 120 := by
  exact ⟨(c6_banner_wait_resolution 500
      { present := false, complete := false, loadAt := none
      , errorAt := none }).1 rfl,
    (c6_banner_wait_resolution 500
      { present := true, complete := false, loadAt := some 120
      , errorAt := none }).2.2 rfl rfl rfl 120 rfl (by omega)⟩

/-- C7: in every pool task trace the live element is mutated (source or
background assigned, markers removed) only at positions strictly after
the probe resolution, and the probe trace on an error outcome is
identical to the one on a load outcome — the pipeline never stalls on a
failing source. -/
theorem c7_probe_before_mutation :
    ∀ (s : String) (o : ProbeOutcome),
      preloadImageTrace s ProbeOutcome.error
        = preloadImageTrace s ProbeOutcome.load ∧
      (imgTaskTrace s o).findIdx isProbeDone = 1 ∧
      (bgTaskTrace s o).findIdx isProbeDone = 1 ∧
      (∀ i a, (imgTaskTrace s o)[i]? = some a → isMutation a = true → 1 < i) ∧
      (∀ i a, (bgTaskTrace s o)[i]? = some a → isMutation a = true → 1 < i) := by
  intro s o
  have himgs : imgTaskTrace s o =
      [LoadAction.probeStart s, LoadAction.probeDone s, LoadAction.assignSrc s,
       LoadAction.removeAttr "data-src", LoadAction.removeAttr "data-lazy"] := by
    cases o <;> rfl
  have hbgs : bgTaskTrace s o =
      [LoadAction.probeStart s, LoadAction.probeDone s, LoadAction.assignBg s,
       LoadAction.removeAttr "data-bg"] := by
    cases o <;> rfl
  refine ⟨rfl, ?_, ?_, ?_, ?_⟩
  · rw [himgs]
    simp [List.findIdx_cons, isProbeDone]
  · rw [hbgs]
    simp [List.findIdx_cons, isProbeDone]
  · intro i a hga hma
    rw [himgs] at hga
    match i with
    | 0 =>
      simp only [List.getElem?_cons_zero, Option.some.injEq] at hga
      rw [← hga] at hma
      simp [isMutation] at hma
    | 1 =>
      simp only [List.getElem?_cons_succ, List.getElem?_cons_zero,
        Option.some.injEq] at hga
      rw [← hga] at hma
      simp [isMutation] at hma
    | (n+2) => omega
  · intro i a hga hma
    rw [hbgs] at hga
    match i with
    | 0 =>
      simp only [List.getElem?_cons_zero, Option.some.injEq] at hga
      rw [← hga] at hma
      simp [isMutation] at hma
    | 1 =>
      simp only [List.getElem?_cons_succ, List.getElem?_cons_zero,
        Option.some.injEq] at hga
      rw [← hga] at hma
      simp [isMutation] at hma
    | (n+2) => omega

/-- C7 witness. -/
theorem c7_witness :
    (imgTaskTrace "/image/a.webp" ProbeOutcome.load)[2]?
      = some (LoadAction.assignSrc "/image/a.webp") ∧ 1 < 2 := by
  refine ⟨rfl, ?_⟩
  exact (c7_probe_before_mutation "/image/a.webp" ProbeOutcome.load).2.2.2.1 2
    (LoadAction.assignSrc "/image/a.webp") rfl rfl

/-- C8: for a well-formed tab registry — exactly one section carries the
target identifier and exactly one control declares it — after
showTab t exactly one section is visible (every other one carries the
hidden marker), exactly one control carries the active marker (and it
declares t), and the URL fragment equals the identifier of the visible
section. -/
theorem c8_show_tab_invariant :
    ∀ (t : String) (p : PolicyPage),
      p.sections.countP (fun s => s.id == t) = 1 →
      p.tabs.countP (fun b => b.target == some t) = 1 →
      ((showTab t p).sections.countP (fun s => !s.hidden) = 1 ∧
       (∀ s ∈ (showTab t p).sections, s.hidden = false → s.id = t) ∧
       (showTab t p).tabs.countP (fun b => b.active) = 1 ∧
       (∀ b ∈ (showTab t p).tabs, b.active = true → b.target = some t) ∧
       (showTab t p).hash = "#" ++ t) := by
  intro t p hsec htab
  refine ⟨?_, ?_, ?_, ?_, rfl⟩
  · show (p.sections.map _).countP _ = 1
    rw [List.countP_map]
    rw [← hsec]
    apply List.countP_congr
    intro s _
    by_cases h : s.id = t <;> simp [h]
  · intro s hs hh
    obtain ⟨s0, _, rfl⟩ := List.mem_map.mp hs
    by_cases h : s0.id = t
    · simp [h]
    · simp [h] at hh
  · show (p.tabs.map _).countP _ = 1
    rw [List.countP_map]
    rw [← htab]
    apply List.countP_congr
    intro b _
    by_cases h : b.target = some t <;> simp [h]
  · intro b hb ha
    obtain ⟨b0, _, rfl⟩ := List.mem_map.mp hb
    by_cases h : b0.target = some t
    · simp [h]
    · simp [h] at ha

/-- C8 witness: clicking the control targeting privacy while terms is
visible leaves exactly one visible section, exactly one active control
and the fragment privacy. -/
theorem c8_witness :
    (showTab "privacy"
      { sections := [{ id := "terms", hidden := false }
                    , { id := "privacy", hidden := true }]
      , tabs := [{ target := some "terms", active := true }
                , { target := some "privacy", active := false }]
      , hash := "#terms" }).sections.countP (fun s => !s.hidden) = 1 ∧
    (showTab "privacy"
      { sections := [{ id := "terms", hidden := false }
                    , { id := "privacy", hidden := true }]
      , tabs := [{ target := some "terms", active := true }
                , { target := some "privacy", active := false }]
      , hash := "#terms" }).tabs.countP (fun b => b.active) = 1 ∧
    (showTab "privacy"
      { sections := [{ id := "terms", hidden := false }
                    , { id := "privacy", hidden := true }]
      , tabs := [{ target := some "terms", active := true }
                , { target := some "privacy", active := false }]
      , hash := "#terms" }).hash = "#privacy" := by
  refine ⟨?_, ?_, ?_⟩
  · exact (c8_show_tab_invariant "privacy"
      { sections := [{ id := "terms", hidden := false }
                    , { id := "privacy", hidden := true }]
      , tabs := [{ target := some "terms", active := true }
                , { target := some "privacy", active := false }]
      , hash := "#terms" } (by decide) (by decide)).1
  · exact (c8_show_tab_invariant "privacy"
      { sections := [{ id := "terms", hidden := false }
                    , { id := "privacy", hidden := true }]
      , tabs := [{ target := some "terms", active := true }
                , { target := some "privacy", active := false }]
      , hash := "#terms" } (by decide) (by decide)).2.2.1
  · exact (c8_show_tab_invariant "privacy"
      { sections := [{ id := "terms", hidden := false }
                    , { id := "privacy", hidden := true }]
      , tabs := [{ target := some "terms", active := true }
                , { target := some "privacy", active := false }]
      , hash := "#terms" } (by decide) (by decide)).2.2.2.2

/-- C9: on initialization with at least one control, if the stripped URL
fragment is among the declared targets the matching tab is shown, and
for any fragment matching no declared target (the empty fragment
included) the fixed fallback terms is shown. -/
theorem c9_initial_tab_selection :
    ∀ (p : PolicyPage),
      p.tabs ≠ [] →
      ((some (stripHash p.hash) ∈ p.tabs.map (fun b => b.target) →
          tabInitialize p = showTab (stripHash p.hash) p) ∧
       (some (stripHash p.hash) ∉ p.tabs.map (fun b => b.target) →
          tabInitialize p = showTab "terms" p)) := by
  intro p hne
  constructor
  · intro hmem
    unfold tabInitialize
    rw [if_neg hne]
    unfold initialTab
    rw [if_pos hmem]
  · intro hmem
    unfold tabInitialize
    rw [if_neg hne]
    unfold initialTab
    rw [if_neg hmem]

/-- C9 witness: a page loaded with fragment unknown-tab falls back to
the terms tab. -/
theorem c9_witness :
    tabInitialize
      { sections := [{ id := "terms", hidden := true }
                    , { id := "privacy", hidden := true }]
      , tabs := [{ target := some "terms", active := false }
                , { target := some "privacy", active := false }]
      , hash := "#unknown-tab" }
      = showTab "terms"
      { sections := [{ id := "terms", hidden := true }
                    , { id := "privacy", hidden := true }]
      , tabs := [{ target := some "terms", active := false }
                , { target := some "privacy", active := false }]
      , hash := "#unknown-tab" } := by
  exact (c9_initial_tab_selection
      { sections := [{ id := "terms", hidden := true }
                    , { id := "privacy", hidden := true }]
      , tabs := [{ target := some "terms", active := false }
                , { target := some "privacy", active := false }]
      , hash := "#unknown-tab" } (by decide)).2 (by decide)

/-- C10: whenever init finishes with at least one element still carrying
a deferred marker, the fallback loader is registered twice — once by the
guarded registration inside the viewport branch and once by the
unconditional block after it — so one first interaction of any
supported kind starts two scan-and-load passes over the same DOM. -/
theorem c10_double_fallback_registration :
    ∀ (w : Nat) (dom : List LazyElem),
      remainingDeferred dom ≠ [] →
      initFallbackRegistrations w dom = 2 ∧
      (∀ k, passesOnFirstInteraction k (initFallbackRegistrations w dom) = 2) := by
  intro w dom h
  have hlen : (remainingDeferred dom).length ≠ 0 := by
    intro h0
    exact h (List.length_eq_zero.mp h0)
  have hreg : initFallbackRegistrations w dom = 2 := by
    unfold initFallbackRegistrations
    rw [if_pos hlen]
    by_cases hm : isMobile w = true
    · rw [if_pos hm]
    · rw [if_neg hm]
  refine ⟨hreg, ?_⟩
  intro k
  rw [hreg]
  cases k <;> rfl

/-- C10 witness. -/
theorem c10_witness :
    remainingDeferred
      [{ isImg := true, dataSrc := some "/image/image.webp", dataLazy := none
       , dataBg := none, dataSrcMobile := none, src := none
       , backgroundImage := none
       , rect := { top := 0, bottom := 100, left := 0, right := 100 } }] ≠ [] ∧
    initFallbackRegistrations 400
      [{ isImg := true, dataSrc := some "/image/image.webp", dataLazy := none
       , dataBg := none, dataSrcMobile := none, src := none
       , backgroundImage := none
       , rect := { top := 0, bottom := 100, left := 0, right := 100 } }] = 2 ∧
    passesOnFirstInteraction InteractionKind.scroll
      (initFallbackRegistrations 400
        [{ isImg := true, dataSrc := some "/image/image.webp", dataLazy := none
         , dataBg := none, dataSrcMobile := none, src := none
         , backgroundImage := none
         , rect := { top := 0, bottom := 100, left := 0, right := 100 } }]) = 2 := by
  refine ⟨by decide, ?_, ?_⟩
  · exact (c10_double_fallback_registration 400
      [{ isImg := true, dataSrc := some "/image/image.webp", dataLazy := none
       , dataBg := none, dataSrcMobile := none, src := none
       , backgroundImage := none
       , rect := { top := 0, bottom := 100, left := 0, right := 100 } }]
      (by decide)).1
  · exact (c10_double_fallback_registration 400
      [{ isImg := true, dataSrc := some "/image/image.webp", dataLazy := none
       , dataBg := none, dataSrcMobile := none, src := none
       , backgroundImage := none
       , rect := { top := 0, bottom := 100, left := 0, right := 100 } }]
      (by decide)).2 InteractionKind.scroll
